import Mathlib

set_option maxHeartbeats 1000000

attribute [local semireducible] Rat.ofScientific Rat.mul Rat.add Rat.sub Rat.inv

/-!
Shallow embedding of the Artemis Global Tracker "Simple Tracker" firmware
(`src/Software/examples/Example14_SimpleTracker/Example14_SimpleTracker.ino`).

The firmware is a single `loop()` containing a `switch (loop_step)` state
machine over global variables.  We embed it as a pure step function
`step : Env → TrackerState → TrackerState`, where `Env` carries the values
returned by the external collaborators (voltage monitor samples, GNSS driver,
PHT sensor, LTC3225 PGOOD pin, Iridium modem status codes, RTC wake events)
during one invocation of `loop()`.

Modelling conventions:
* C `float`/`double` values are embedded as exact rationals (every IEEE value
  is a rational, and the firmware only compares, scales and prints them).
  Where a claim depends on the binary32 *storage* of a decimal constant we
  make the rounding explicit via `fl32`.
* Machine integers: the only wrapping arithmetic that matters is the
  `unsigned long` seconds counter in the RTC ISR, modelled with `% 2^32`.
  C integer division of `long` (truncation towards zero) is `Int.tdiv`.
* The three busy-wait loops (GNSS fix wait, PGOOD wait, capacitor top-up) are
  embedded as structural recursion over the finite list of per-iteration
  sensor samples supplied by the environment; exhausting the list is the
  `millis()` timeout expiring.  Each list element is what the corresponding
  `digitalRead`/driver call would return on that iteration.
-/

/-- The `loop_step` values (source lines 148-157). -/
inductive LoopStep where
  | loop_init | start_GPS | read_GPS | read_pressure
  | start_LTC3225 | wait_LTC3225 | start_9603 | zzz | wake
deriving DecidableEq, Repr

/-- `#define VBAT_LOW 2.8` (source line 130): minimum voltage for the LTC3225. -/
def VBAT_LOW : ℚ := 2.8

/-- `unsigned long INTERVAL = 15 * 60` seconds (source line 95). -/
def INTERVAL : ℕ := 15 * 60

/-- `#define ISBD_SUCCESS 0` (IridiumSBD library convention: 0 means success). -/
def ISBD_SUCCESS : ℤ := 0

/-- State shared between the RTC interrupt handler and the sequencer:
`volatile unsigned long seconds_count` and `volatile bool interval_alarm`
(source lines 98-101). -/
structure RtcState where
  seconds_count : ℕ
  interval_alarm : Bool
deriving DecidableEq, Repr

/-- The RTC alarm interrupt service routine `am_rtc_isr` (source lines 192-206):
increment `seconds_count`; if it has reached `INTERVAL`, set `interval_alarm`
and reset the counter.  `seconds_count` is an `unsigned long`, hence `% 2^32`. -/
def am_rtc_isr (st : RtcState) : RtcState :=
  let c := (st.seconds_count + 1) % 4294967296
  if INTERVAL ≤ c then { seconds_count := 0, interval_alarm := true }
  else { seconds_count := c, interval_alarm := st.interval_alarm }

/-- `n` consecutive invocations of the RTC ISR. -/
def isrN : ℕ → RtcState → RtcState
  | 0, st => st
  | n + 1, st => isrN n (am_rtc_isr st)

/-- The deep-sleep wait `while (!interval_alarm) { am_hal_sysctrl_sleep(...); }
interval_alarm = false;` (source lines 867-873).  Each list entry is one wake
event (spurious or not) carrying the number of RTC ISR firings that happened
while asleep.  Result: final RTC state and whether the wait loop was exited
(`false` means the processor is still asleep when the modelled trace ends). -/
def sleepWait : RtcState → List ℕ → RtcState × Bool
  | st, [] =>
    if st.interval_alarm then ({ st with interval_alarm := false }, true)
    else (st, false)
  | st, n :: rest =>
    if st.interval_alarm then ({ st with interval_alarm := false }, true)
    else sleepWait (isrN n st) rest

/-- Fuel-driven `⌊log₂ n⌋` on naturals (structural recursion so that concrete
instances reduce inside the kernel; call with `fuel ≥ n`). -/
def natLog2F : ℕ → ℕ → ℕ
  | 0, _ => 0
  | fuel + 1, n => if n ≤ 1 then 0 else natLog2F fuel (n / 2) + 1

/-- Fuel-driven `⌈log₂ r⌉` on rationals `r ≥ 1` (smallest `k` with `r ≤ 2^k`). -/
def qClog2F : ℕ → ℚ → ℕ
  | 0, _ => 0
  | fuel + 1, r => if r ≤ 1 then 0 else qClog2F fuel (r / 2) + 1

/-- `⌊log₂ q⌋` for positive rationals. -/
def qLog2 (q : ℚ) : ℤ :=
  if 1 ≤ q then ((natLog2F (⌊q⌋).toNat (⌊q⌋).toNat : ℕ) : ℤ)
  else -((qClog2F (1 / q).num.natAbs (1 / q) : ℕ) : ℤ)

/-- `2^e` in ℚ for an integer exponent. -/
def pow2z : ℤ → ℚ
  | .ofNat n => 2 ^ n
  | .negSucc n => 1 / 2 ^ (n + 1)

/-- Round-to-nearest storage of a rational into IEEE-754 binary32, used where a
claim depends on the fact that the firmware's globals are C `float`s.  Normal
range only (all values evaluated in this development are normal or zero); ties
round half-up, which agrees with round-to-nearest-even at every input evaluated
here (none is a tie). -/
def fl32 (q : ℚ) : ℚ :=
  if q = 0 then 0
  else
    let e : ℤ := qLog2 |q|
    let m : ℤ := round (|q| * pow2z (23 - e))
    (if q < 0 then (-1 : ℚ) else 1) * (m : ℚ) * pow2z (e - 23)

/-- Left-pad the decimal digits of `fp` with zeros to exactly `prec` digits
(the fractional part of a fixed-point print). -/
def padZeros (prec fp : ℕ) : String :=
  let s := toString fp
  String.mk (List.replicate (prec - s.length) '0') ++ s

/-- Left-pad a string with spaces to a minimum width. -/
def padSpaces (width : ℕ) (s : String) : String :=
  String.mk (List.replicate (width - s.length) ' ') ++ s

/-- Model of `dtostrf(value, width, prec, buf)` (avr `dtostrf` / `%*.*f`):
print `q` in fixed-point with `prec` digits after the point, rounded to
nearest, right-justified to a minimum field width. -/
def dtostrf (q : ℚ) (width prec : ℕ) : String :=
  let scaled : ℤ := round (q * (10 : ℚ) ^ prec)
  let a : ℕ := scaled.natAbs
  let ip : ℕ := a / 10 ^ prec
  let fp : ℕ := a % 10 ^ prec
  let body : String :=
    (if q < 0 then "-" else "") ++ toString ip ++
      (if prec = 0 then "" else "." ++ padZeros prec fp)
  padSpaces width body

/-- Model of `sprintf` `%02d` for the non-negative date/time fields. -/
def pad2 (n : ℕ) : String :=
  if n < 10 then "0" ++ toString n else toString n

/-- The per-cycle GNSS fix snapshot (the globals set in `read_GPS`, source
lines 110-123).  Fields typed as the C globals are: `lat`, `lon`, `speed` are
`float`s (so a record arising in the firmware holds binary32 values), `alt`
and `course` are `long`, `pdop` and `year` are `int`, the remaining date/time
fields and the satellite count are `byte`s. -/
structure FixRecord where
  year : ℤ
  month : ℕ
  day : ℕ
  hour : ℕ
  minute : ℕ
  second : ℕ
  lat : ℚ
  lon : ℚ
  alt : ℤ
  speed : ℚ
  course : ℤ
  pdop : ℤ
  satellites : ℕ
deriving DecidableEq, Repr

/-- Build the `FixRecord` whose `float` fields hold the binary32 storage of the
given nominal decimal values (this is the record the C program actually holds
when the nominal values are assigned to its `float` globals). -/
def FixRecord.store (year : ℤ) (month day hour minute second : ℕ)
    (lat lon : ℚ) (alt : ℤ) (speed : ℚ) (course pdop : ℤ)
    (satellites : ℕ) : FixRecord :=
  { year := year, month := month, day := day, hour := hour, minute := minute
    second := second, lat := fl32 lat, lon := fl32 lon, alt := alt
    speed := fl32 speed, course := course, pdop := pdop
    satellites := satellites }

/-- The per-cycle environment snapshot: `pascals` and `tempC`
(source lines 124-125), both C `float`s. -/
structure EnvironmentRecord where
  pressure : ℚ
  temp : ℚ
deriving DecidableEq, Repr

/-- Build the `EnvironmentRecord` holding the binary32 storage of the given
nominal values. -/
def EnvironmentRecord.store (pressure temp : ℚ) : EnvironmentRecord :=
  { pressure := fl32 pressure, temp := fl32 temp }

/-- The outbound message assembly of `start_9603` (source lines 721-741):
`dtostrf` conversions followed by
`sprintf(outBuffer, "%d%02d%02d%02d%02d%02d,%s,%s,%s,%s,%d,%d,%d,%s,%s,%s,%d",
year, month, day, hour, minute, second, lat_str, lon_str, alt_str, speed_str,
course, pdop, satellites, pressure_str, temperature_str, vbat_str,
iterationCounter)`. -/
def formatMessage (fr : FixRecord) (er : EnvironmentRecord) (vbat : ℚ)
    (count : ℤ) : String :=
  toString fr.year ++ pad2 fr.month ++ pad2 fr.day ++ pad2 fr.hour ++
    pad2 fr.minute ++ pad2 fr.second ++ "," ++
    dtostrf fr.lat 8 6 ++ "," ++ dtostrf fr.lon 8 6 ++ "," ++
    dtostrf (fr.alt : ℚ) 4 2 ++ "," ++ dtostrf fr.speed 4 2 ++ "," ++
    toString fr.course ++ "," ++ toString fr.pdop ++ "," ++
    toString fr.satellites ++ "," ++ dtostrf er.pressure 1 0 ++ "," ++
    dtostrf er.temp 3 1 ++ "," ++ dtostrf vbat 4 2 ++ "," ++ toString count

/-- The `read_GPS` wait loop (source lines 422-446):
`for (unsigned long tnow = millis(); (fixType != 3) && (millis() - tnow <
GNSS_timeout * 60UL * 1000UL);)`.  Arguments: current `fixType`, current
`vbat`, and the list of per-iteration `(myGPS.getFixType(), get_vbat())`
samples remaining before the timeout.  Returns the final `fixType`, the final
`vbat`, and the samples left unconsumed when the loop exited. -/
def gpsFixLoop (ft : ℕ) (vb : ℚ) :
    List (ℕ × ℚ) → ℕ × ℚ × List (ℕ × ℚ)
  | [] => (ft, vb, [])
  | (f, v) :: rest =>
    if ft = 3 then (ft, vb, (f, v) :: rest)
    else if v < VBAT_LOW then (f, v, rest)
    else gpsFixLoop f v rest

/-- The `start_LTC3225` wait loop (source lines 574-598):
`for (unsigned long tnow = millis(); (!PGOOD) && (millis() - tnow <
CHG_timeout * 60UL * 1000UL);)`.  Samples are the per-iteration
`(digitalRead(superCapPGOOD), get_vbat())` pairs. -/
def pgoodLoop (pg : Bool) (vb : ℚ) :
    List (Bool × ℚ) → Bool × ℚ × List (Bool × ℚ)
  | [] => (pg, vb, [])
  | (p, v) :: rest =>
    if pg then (pg, vb, (p, v) :: rest)
    else if v < VBAT_LOW then (p, v, rest)
    else pgoodLoop p v rest

/-- The `wait_LTC3225` top-up loop (source lines 634-656):
`for (unsigned long tnow = millis(); millis() - tnow < TOPUP_timeout * 1000UL;)`.
Each sample carries the physical level of the `superCapPGOOD` pin during that
iteration together with the `get_vbat()` reading; the loop body reads only the
battery voltage — it never reads the PGOOD pin (the `Bool` component is
deliberately ignored, exactly as the source ignores the pin). -/
def topupLoop (vb : ℚ) : List (Bool × ℚ) → ℚ × List (Bool × ℚ)
  | [] => (vb, [])
  | (_, v) :: rest =>
    if v < VBAT_LOW then (v, rest) else topupLoop v rest

/-- Values read from the u-blox GNSS driver when a 3D fix is captured
(source lines 461-474), in the driver's raw units. -/
structure GnssFix where
  ms : ℤ
  second : ℕ
  minute : ℕ
  hour : ℕ
  day : ℕ
  month : ℕ
  year : ℤ
  latRaw : ℤ
  lonRaw : ℤ
  altMM : ℤ
  speedMMS : ℤ
  siv : ℕ
  heading : ℤ
  pdopRaw : ℤ
deriving DecidableEq, Repr

/-- Everything the external collaborators feed into one invocation of
`loop()`.  Only the fields relevant to the current `loop_step` are consumed. -/
structure Env where
  vbat0 : ℚ
  gpsBeginOk : Bool
  dynModelOk : Bool
  gpsSamples : List (ℕ × ℚ)
  fix : GnssFix
  phtBegin1 : Bool
  phtBegin2 : Bool
  phtTemp : ℚ
  phtPressHPa : ℚ
  chgSamples : List (Bool × ℚ)
  topupSamples : List (Bool × ℚ)
  modemBeginErr : ℤ
  sendErr : ℤ
  clearErr : ℤ
  sleepErr : ℤ
  sleepEvents : List ℕ
deriving DecidableEq, Repr

/-- The global state of the firmware: `loop_step`, the data globals
(source lines 103-128, 157), the RTC-shared variables, the power-control pin
levels, and an instrumentation flag `hazard` that records whether a power
domain switch-on ever happened while the mutually-exclusive domain was live
(the AS179 RF switch hazard of source lines 66-67). -/
structure TrackerState where
  loop_step : LoopStep
  vbat : ℚ
  latitude : ℚ
  longitude : ℚ
  altitude : ℤ
  speed : ℚ
  satellites : ℕ
  course : ℤ
  pdop : ℤ
  year : ℤ
  month : ℕ
  day : ℕ
  hour : ℕ
  minute : ℕ
  second : ℕ
  milliseconds : ℤ
  pascals : ℚ
  tempC : ℚ
  fixType : ℕ
  PGOOD : Bool
  iterationCounter : ℤ
  seconds_count : ℕ
  interval_alarm : Bool
  gnssOn : Bool
  iridiumPwr : Bool
  iridiumSleepPin : Bool
  superCapChgEN : Bool
  busVoltageMonEN : Bool
  lastMsg : String
  hazard : Bool
deriving DecidableEq, Repr

/-- `case loop_init` (source lines 304-335): check the battery voltage;
low voltage goes to sleep, otherwise start the GNSS. -/
def stepInit (env : Env) (s : TrackerState) : TrackerState :=
  let s1 := { s with vbat := env.vbat0, busVoltageMonEN := false }
  if env.vbat0 < VBAT_LOW then { s1 with loop_step := .zzz }
  else { s1 with loop_step := .start_GPS }

/-- `case start_GPS` (source lines 339-411): `gnssON()`, settle, re-check the
voltage (low: `gnssOFF()` and sleep), then attempt `myGPS.begin` (failure:
defaults into the fix globals, `gnssOFF()`, on to `read_pressure`; success:
on to `read_GPS`). -/
def stepStartGPS (env : Env) (s : TrackerState) : TrackerState :=
  let s0 := { s with hazard := s.hazard || s.iridiumPwr, gnssOn := true }
  let s1 := { s0 with vbat := env.vbat0, busVoltageMonEN := false }
  if env.vbat0 < VBAT_LOW then
    { s1 with gnssOn := false, loop_step := .zzz }
  else if env.gpsBeginOk = false then
    { s1 with
      latitude := 0, longitude := 0, altitude := 0, speed := 0
      satellites := 0, course := 0, pdop := 0, year := 1970, month := 1
      day := 1, hour := 0, minute := 0, second := 0, milliseconds := 0
      gnssOn := false, loop_step := .read_pressure }
  else
    { s1 with loop_step := .read_GPS }

/-- `case read_GPS` (source lines 415-513): clear `fixType`, run the bounded
fix-wait loop, then branch — low voltage to sleep; 3D fix captures the fix
globals (time first, then position); otherwise defaults — and in every case
`gnssOFF()`. -/
def stepReadGPS (env : Env) (s : TrackerState) : TrackerState :=
  let r := gpsFixLoop 0 s.vbat env.gpsSamples
  let s1 := { s with
    fixType := r.1, vbat := r.2.1
    busVoltageMonEN := s.busVoltageMonEN && env.gpsSamples.isEmpty }
  let s2 :=
    if r.2.1 < VBAT_LOW then { s1 with loop_step := .zzz }
    else if r.1 = 3 then
      { s1 with
        milliseconds := env.fix.ms, second := env.fix.second
        minute := env.fix.minute, hour := env.fix.hour, day := env.fix.day
        month := env.fix.month, year := env.fix.year
        latitude := fl32 ((env.fix.latRaw : ℚ) / 10000000)
        longitude := fl32 ((env.fix.lonRaw : ℚ) / 10000000)
        altitude := env.fix.altMM.tdiv 1000
        speed := fl32 ((env.fix.speedMMS : ℚ) / 1000)
        satellites := env.fix.siv
        course := env.fix.heading.tdiv 10000000
        pdop := env.fix.pdopRaw.tdiv 100
        loop_step := .read_pressure }
    else
      { s1 with
        latitude := 0, longitude := 0, altitude := 0, speed := 0
        satellites := 0, course := 0, pdop := 0, year := 1970, month := 1
        day := 1, hour := 0, minute := 0, second := 0, milliseconds := 0
        loop_step := .read_pressure }
  { s2 with gnssOn := false }

/-- Which calls into the MS8607 driver `case read_pressure` makes, in order. -/
inductive PhtCall where
  | phtBegin | getTemp | getPress
deriving DecidableEq, Repr

/-- `case read_pressure` (source lines 517-558): `barometricSensor.begin`,
retried once on failure; persistent failure zeroes `pascals`/`tempC`,
otherwise temperature is read and then pressure (hPa converted to Pa by
`* 100.0`); always on to `start_LTC3225`.  Also returns the ordered trace of
driver calls made. -/
def readPressureRun (env : Env) (s : TrackerState) :
    TrackerState × List PhtCall :=
  let okCalls :=
    if env.phtBegin1 then (true, [PhtCall.phtBegin])
    else (env.phtBegin2, [PhtCall.phtBegin, PhtCall.phtBegin])
  if okCalls.1 then
    ({ s with
       tempC := env.phtTemp, pascals := env.phtPressHPa * 100
       loop_step := .start_LTC3225 },
     okCalls.2 ++ [PhtCall.getTemp, PhtCall.getPress])
  else
    ({ s with pascals := 0, tempC := 0, loop_step := .start_LTC3225 },
     okCalls.2)

/-- `case start_LTC3225` (source lines 562-625): enable the charger, clear
`PGOOD`, run the bounded PGOOD-wait loop, then branch — low voltage to sleep;
PGOOD high on to the top-up; otherwise (timeout) to sleep. -/
def stepStartLTC3225 (env : Env) (s : TrackerState) : TrackerState :=
  let s0 := { s with superCapChgEN := true, PGOOD := false }
  let r := pgoodLoop false s0.vbat env.chgSamples
  let s1 := { s0 with
    PGOOD := r.1, vbat := r.2.1
    busVoltageMonEN := s0.busVoltageMonEN && env.chgSamples.isEmpty }
  if r.2.1 < VBAT_LOW then { s1 with loop_step := .zzz }
  else if r.1 then { s1 with loop_step := .wait_LTC3225 }
  else { s1 with loop_step := .zzz }

/-- `case wait_LTC3225` (source lines 629-683): run the fixed-duration top-up
loop (whose body samples only the battery voltage — the PGOOD pin is not
read), then branch on the final voltage and on the *stored* `PGOOD` variable
left over from `start_LTC3225`. -/
def stepWaitLTC3225 (env : Env) (s : TrackerState) : TrackerState :=
  let r := topupLoop s.vbat env.topupSamples
  let s1 := { s with
    vbat := r.1
    busVoltageMonEN := s.busVoltageMonEN && env.topupSamples.isEmpty }
  if r.1 < VBAT_LOW then { s1 with loop_step := .zzz }
  else if s.PGOOD then { s1 with loop_step := .start_9603 }
  else { s1 with loop_step := .zzz }

/-- `case start_9603` (source lines 687-804): enable Iridium power (the RF
switch hazard moment), `modem.begin()` (failure: straight to sleep, counter
untouched); on success assemble the outbound message, send it (status code
only influences the LED), clear the MO buffer and put the modem to sleep
(best-effort), increment `iterationCounter`, and go to sleep. -/
def stepStart9603 (env : Env) (s : TrackerState) : TrackerState :=
  let s1 := { s with
    hazard := s.hazard || s.gnssOn, iridiumPwr := true
    iridiumSleepPin := true }
  if env.modemBeginErr ≠ ISBD_SUCCESS then
    { s1 with loop_step := .zzz }
  else
    let msg := formatMessage
      { year := s1.year, month := s1.month, day := s1.day, hour := s1.hour
        minute := s1.minute, second := s1.second, lat := s1.latitude
        lon := s1.longitude, alt := s1.altitude, speed := s1.speed
        course := s1.course, pdop := s1.pdop, satellites := s1.satellites }
      { pressure := s1.pascals, temp := s1.tempC } s1.vbat s1.iterationCounter
    { s1 with
      lastMsg := msg
      iridiumSleepPin := env.sleepErr ≠ ISBD_SUCCESS
      iterationCounter := s1.iterationCounter + 1, loop_step := .zzz }

/-- The unconditional power-down prologue of `case zzz`
(source lines 810-835): `gnssOFF()`, drive the 9603N ON/OFF line low, disable
Iridium power, disable the supercapacitor charger, disable the bus voltage
monitor. -/
def zzzPowerDown (s : TrackerState) : TrackerState :=
  { s with
    gnssOn := false, iridiumSleepPin := false, iridiumPwr := false
    superCapChgEN := false, busVoltageMonEN := false }

/-- `case zzz` (source lines 808-879): power everything down, then block in
the deep-sleep wait until `interval_alarm` is set; on wake clear the flag and
go to `wake` (if the modelled trace ends without the alarm, the processor is
still asleep in `zzz`). -/
def stepZzz (env : Env) (s : TrackerState) : TrackerState :=
  let s1 := zzzPowerDown s
  let r := sleepWait { seconds_count := s1.seconds_count
                       interval_alarm := s1.interval_alarm } env.sleepEvents
  { s1 with
    seconds_count := r.1.seconds_count
    interval_alarm := r.1.interval_alarm
    loop_step := if r.2 then .wake else .zzz }

/-- One invocation of `loop()` (source lines 297-912). -/
def step (env : Env) (s : TrackerState) : TrackerState :=
  match s.loop_step with
  | .loop_init => stepInit env s
  | .start_GPS => stepStartGPS env s
  | .read_GPS => stepReadGPS env s
  | .read_pressure => (readPressureRun env s).1
  | .start_LTC3225 => stepStartLTC3225 env s
  | .wait_LTC3225 => stepWaitLTC3225 env s
  | .start_9603 => stepStart9603 env s
  | .zzz => stepZzz env s
  | .wake => { s with loop_step := .loop_init }

/-- The state after `setup()` (source lines 263-295) with the globals at
their declaration-time initial values (source lines 95-157). -/
def initialState : TrackerState :=
  { loop_step := .loop_init, vbat := 5, latitude := 0, longitude := 0
    altitude := 0, speed := 0, satellites := 0, course := 0, pdop := 0
    year := 1970, month := 1, day := 1, hour := 0, minute := 0, second := 0
    milliseconds := 0, pascals := 0, tempC := 0, fixType := 0, PGOOD := false
    iterationCounter := 0, seconds_count := 0, interval_alarm := false
    gnssOn := false, iridiumPwr := false, iridiumSleepPin := false
    superCapChgEN := false, busVoltageMonEN := false, lastMsg := ""
    hazard := false }

/-- A benign environment, used to instantiate theorems at concrete inputs. -/
def defaultEnv : Env :=
  { vbat0 := 5, gpsBeginOk := true, dynModelOk := true, gpsSamples := []
    fix := { ms := 0, second := 0, minute := 0, hour := 0, day := 1
             month := 1, year := 1970, latRaw := 0, lonRaw := 0, altMM := 0
             speedMMS := 0, siv := 0, heading := 0, pdopRaw := 0 }
    phtBegin1 := true, phtBegin2 := true, phtTemp := 0, phtPressHPa := 0
    chgSamples := [], topupSamples := [], modemBeginErr := 0, sendErr := 0
    clearErr := 0, sleepErr := 0, sleepEvents := [] }

/-- The states reachable from reset by any sequence of `loop()` invocations
under any environment. -/
inductive Reachable : TrackerState → Prop where
  | init : Reachable initialState
  | next {s : TrackerState} (h : Reachable s) (env : Env) :
      Reachable (step env s)

/-! ## Helper lemmas about the bounded wait loops -/

/-- When the loop is still running (current fix not 3D) and all earlier
samples were neither a 3D fix nor a low voltage, the GNSS fix-wait loop stops
exactly at the first low-voltage sample, leaving the later samples unread. -/
theorem gpsFixLoop_low {f : ℕ} {v : ℚ} {rest : List (ℕ × ℚ)}
    (hv : v < VBAT_LOW) :
    ∀ (pre : List (ℕ × ℚ)) (ft : ℕ) (vb : ℚ), ft ≠ 3 →
      (∀ x ∈ pre, x.1 ≠ 3 ∧ ¬(x.2 < VBAT_LOW)) →
      gpsFixLoop ft vb (pre ++ (f, v) :: rest) = (f, v, rest) := by
  intro pre
  induction pre with
  | nil =>
    intro ft vb hft _
    simp [gpsFixLoop, hft, hv]
  | cons hd tl ih =>
    intro ft vb hft hpre
    obtain ⟨h3, hlow⟩ := hpre hd (List.mem_cons_self hd tl)
    obtain ⟨p, w⟩ := hd
    simp only [List.cons_append, gpsFixLoop, if_neg hft, if_neg hlow]
    exact ih p w h3 fun x hx => hpre x (List.mem_cons_of_mem _ hx)

/-- When the loop is still running (`PGOOD` not yet seen) and all earlier
samples read the pin low with an adequate voltage, the charger-ready wait loop
stops exactly at the first low-voltage sample. -/
theorem pgoodLoop_low {p : Bool} {v : ℚ} {rest : List (Bool × ℚ)}
    (hv : v < VBAT_LOW) :
    ∀ (pre : List (Bool × ℚ)) (pg : Bool) (vb : ℚ), pg = false →
      (∀ x ∈ pre, x.1 = false ∧ ¬(x.2 < VBAT_LOW)) →
      pgoodLoop pg vb (pre ++ (p, v) :: rest) = (p, v, rest) := by
  intro pre
  induction pre with
  | nil =>
    intro pg vb hpg _
    simp [pgoodLoop, hpg, hv]
  | cons hd tl ih =>
    intro pg vb hpg hpre
    obtain ⟨hfalse, hlow⟩ := hpre hd (List.mem_cons_self hd tl)
    obtain ⟨q, w⟩ := hd
    simp only [List.cons_append, pgoodLoop, hpg, if_neg hlow, Bool.false_eq_true,
      if_false]
    exact ih q w hfalse fun x hx => hpre x (List.mem_cons_of_mem _ hx)

/-- When all earlier samples carried an adequate voltage, the top-up wait loop
stops exactly at the first low-voltage sample. -/
theorem topupLoop_low {p : Bool} {v : ℚ} {rest : List (Bool × ℚ)}
    (hv : v < VBAT_LOW) :
    ∀ (pre : List (Bool × ℚ)) (vb : ℚ),
      (∀ x ∈ pre, ¬(x.2 < VBAT_LOW)) →
      topupLoop vb (pre ++ (p, v) :: rest) = (v, rest) := by
  intro pre
  induction pre with
  | nil =>
    intro vb _
    simp [topupLoop, hv]
  | cons hd tl ih =>
    intro vb hpre
    have hlow := hpre hd (List.mem_cons_self hd tl)
    obtain ⟨q, w⟩ := hd
    simp only [List.cons_append, topupLoop, if_neg hlow]
    exact ih w fun x hx => hpre x (List.mem_cons_of_mem _ hx)

/-! ## The power-domain invariant -/

/-- Strengthened invariant for the reachable states: the RF-switch hazard
instrumentation never fired, the GNSS domain is live only while the machine
sits at `read_GPS`, and the Iridium power domain is live only while the
machine sits at `zzz` (it is switched on inside `start_9603`, whose every
branch ends at `zzz`, and switched off by `zzz` itself). -/
def TrackerInv (s : TrackerState) : Prop :=
  s.hazard = false ∧
    (s.gnssOn = true → s.loop_step = .read_GPS) ∧
    (s.iridiumPwr = true → s.loop_step = .zzz)

/-- A `Bool` is false when its truth would imply a false proposition. -/
theorem bool_off {b : Bool} {P : Prop} (h : b = true → P) (hnp : ¬P) :
    b = false := by
  cases b
  · rfl
  · exact absurd (h rfl) hnp

/-- `TrackerInv` is preserved by every `loop()` invocation. -/
theorem inv_step (env : Env) (s : TrackerState) (h : TrackerInv s) :
    TrackerInv (step env s) := by
  obtain ⟨hz, hg, hi⟩ := h
  cases hls : s.loop_step
  case loop_init =>
    have hg0 : s.gnssOn = false := bool_off hg (by rw [hls]; decide)
    have hi0 : s.iridiumPwr = false := bool_off hi (by rw [hls]; decide)
    unfold TrackerInv
    simp only [step, hls, stepInit]
    split <;> simp [hz, hg0, hi0]
  case start_GPS =>
    have hi0 : s.iridiumPwr = false := bool_off hi (by rw [hls]; decide)
    unfold TrackerInv
    simp only [step, hls, stepStartGPS]
    split
    · simp [hz, hi0]
    · split <;> simp [hz, hi0]
  case read_GPS =>
    have hi0 : s.iridiumPwr = false := bool_off hi (by rw [hls]; decide)
    unfold TrackerInv
    simp only [step, hls, stepReadGPS]
    split
    · simp [hz, hi0]
    · split <;> simp [hz, hi0]
  case read_pressure =>
    have hg0 : s.gnssOn = false := bool_off hg (by rw [hls]; decide)
    have hi0 : s.iridiumPwr = false := bool_off hi (by rw [hls]; decide)
    unfold TrackerInv
    simp only [step, hls, readPressureRun]
    split_ifs <;> simp [hz, hg0, hi0]
  case start_LTC3225 =>
    have hg0 : s.gnssOn = false := bool_off hg (by rw [hls]; decide)
    have hi0 : s.iridiumPwr = false := bool_off hi (by rw [hls]; decide)
    unfold TrackerInv
    simp only [step, hls, stepStartLTC3225]
    split
    · simp [hz, hg0, hi0]
    · split <;> simp [hz, hg0, hi0]
  case wait_LTC3225 =>
    have hg0 : s.gnssOn = false := bool_off hg (by rw [hls]; decide)
    have hi0 : s.iridiumPwr = false := bool_off hi (by rw [hls]; decide)
    unfold TrackerInv
    simp only [step, hls, stepWaitLTC3225]
    split
    · simp [hz, hg0, hi0]
    · split <;> simp [hz, hg0, hi0]
  case start_9603 =>
    have hg0 : s.gnssOn = false := bool_off hg (by rw [hls]; decide)
    unfold TrackerInv
    simp only [step, hls, stepStart9603]
    split <;> simp [hz, hg0]
  case zzz =>
    unfold TrackerInv
    simp only [step, hls, stepZzz, zzzPowerDown]
    simp [hz]
  case wake =>
    have hg0 : s.gnssOn = false := bool_off hg (by rw [hls]; decide)
    have hi0 : s.iridiumPwr = false := bool_off hi (by rw [hls]; decide)
    unfold TrackerInv
    simp only [step, hls]
    simp [hz, hg0, hi0]

/-- Every reachable state satisfies the strengthened invariant. -/
theorem reachable_inv {s : TrackerState} (h : Reachable s) : TrackerInv s := by
  induction h with
  | init => unfold TrackerInv initialState; simp
  | next _ env ih => exact inv_step env _ ih

/-! ## Claim theorems -/

/-- C1: concrete execution of the `wait_LTC3225` (TopUpCapacitorCharge) state
in which the physical PGOOD line reads LOW on every top-up iteration while the
battery voltage stays adequate.  The firmware still proceeds to `start_9603`
(StartTransmit): the top-up loop body never reads the PGOOD pin (contradicting
the loop's own comment, source line 633, and the claim's "re-checks ... the
ready signal every iteration / ready lost → Sleep"); the post-loop test uses
the stale `PGOOD` variable captured in `start_LTC3225`. -/
theorem topup_never_rereads_pgood_line :
    (step { defaultEnv with topupSamples := [(false, 5), (false, 5)] }
      { initialState with
        loop_step := .wait_LTC3225, PGOOD := true
        superCapChgEN := true }).loop_step = LoopStep.start_9603 := by
  decide

/-- C2: in every reachable state of the tracker state machine the GNSS power
domain and the Iridium modem power domain are never simultaneously enabled,
and the in-step instrumentation flag (set whenever one domain is switched on
while the other is live) never fires. -/
theorem gnss_modem_never_both_powered {s : TrackerState} (h : Reachable s) :
    ¬(s.gnssOn = true ∧ s.iridiumPwr = true) ∧ s.hazard = false := by
  obtain ⟨hz, hg, hi⟩ := reachable_inv h
  refine ⟨?_, hz⟩
  rintro ⟨h1, h2⟩
  exact absurd ((hg h1).symm.trans (hi h2)) (by decide)

/-- C2 witness: the invariant instantiated at a concrete reachable state (one
`loop()` invocation after reset). -/
theorem gnss_modem_never_both_powered_witness :
    ¬((step defaultEnv initialState).gnssOn = true ∧
        (step defaultEnv initialState).iridiumPwr = true) ∧
      (step defaultEnv initialState).hazard = false :=
  gnss_modem_never_both_powered (Reachable.next Reachable.init defaultEnv)

/-- C3: in each of the three bounded wait loops (GNSS fix wait in `read_GPS`,
charger-ready wait in `start_LTC3225`, capacitor top-up wait in
`wait_LTC3225`), if an in-loop voltage sample is below `VBAT_LOW` then the
loop terminates at that very sample (the remaining per-poll samples are left
unread, i.e. within one poll interval) and the state machine's next state is
`zzz` (Sleep). -/
theorem low_voltage_aborts_wait_loops :
    (∀ (env : Env) (s : TrackerState) (pre rest : List (ℕ × ℚ)) (f : ℕ)
        (v : ℚ), s.loop_step = .read_GPS →
      (∀ x ∈ pre, x.1 ≠ 3 ∧ ¬(x.2 < VBAT_LOW)) → v < VBAT_LOW →
      env.gpsSamples = pre ++ (f, v) :: rest →
      gpsFixLoop 0 s.vbat env.gpsSamples = (f, v, rest) ∧
        (step env s).loop_step = .zzz) ∧
    (∀ (env : Env) (s : TrackerState) (pre rest : List (Bool × ℚ)) (p : Bool)
        (v : ℚ), s.loop_step = .start_LTC3225 →
      (∀ x ∈ pre, x.1 = false ∧ ¬(x.2 < VBAT_LOW)) → v < VBAT_LOW →
      env.chgSamples = pre ++ (p, v) :: rest →
      pgoodLoop false s.vbat env.chgSamples = (p, v, rest) ∧
        (step env s).loop_step = .zzz) ∧
    (∀ (env : Env) (s : TrackerState) (pre rest : List (Bool × ℚ)) (p : Bool)
        (v : ℚ), s.loop_step = .wait_LTC3225 →
      (∀ x ∈ pre, ¬(x.2 < VBAT_LOW)) → v < VBAT_LOW →
      env.topupSamples = pre ++ (p, v) :: rest →
      topupLoop s.vbat env.topupSamples = (v, rest) ∧
        (step env s).loop_step = .zzz) := by
  refine ⟨?_, ?_, ?_⟩
  · intro env s pre rest f v hls hpre hv hsamp
    have hloop : gpsFixLoop 0 s.vbat env.gpsSamples = (f, v, rest) := by
      rw [hsamp]; exact gpsFixLoop_low hv pre 0 s.vbat (by decide) hpre
    refine ⟨hloop, ?_⟩
    simp only [step, hls, stepReadGPS, hloop]
    simp [hv]
  · intro env s pre rest p v hls hpre hv hsamp
    have hloop : pgoodLoop false s.vbat env.chgSamples = (p, v, rest) := by
      rw [hsamp]; exact pgoodLoop_low hv pre false s.vbat rfl hpre
    refine ⟨hloop, ?_⟩
    simp only [step, hls, stepStartLTC3225, hloop]
    simp [hv]
  · intro env s pre rest p v hls hpre hv hsamp
    have hloop : topupLoop s.vbat env.topupSamples = (v, rest) := by
      rw [hsamp]; exact topupLoop_low hv pre s.vbat hpre
    refine ⟨hloop, ?_⟩
    simp only [step, hls, stepWaitLTC3225, hloop]
    simp [hv]

/-- C3 witness: each of the three loops instantiated at a concrete trace with
one adequate sample followed by one low sample. -/
theorem low_voltage_aborts_wait_loops_witness :
    (gpsFixLoop 0 5 [(0, 3), (0, 2)] = (0, 2, []) ∧
      (step { defaultEnv with gpsSamples := [(0, 3), (0, 2)] }
        { initialState with loop_step := .read_GPS }).loop_step = .zzz) ∧
    (pgoodLoop false 5 [(false, 3), (false, 2)] = (false, 2, []) ∧
      (step { defaultEnv with chgSamples := [(false, 3), (false, 2)] }
        { initialState with loop_step := .start_LTC3225 }).loop_step = .zzz) ∧
    (topupLoop 5 [(false, 3), (false, 2)] = (2, []) ∧
      (step { defaultEnv with topupSamples := [(false, 3), (false, 2)] }
        { initialState with loop_step := .wait_LTC3225 }).loop_step = .zzz) :=
  ⟨low_voltage_aborts_wait_loops.1
      { defaultEnv with gpsSamples := [(0, 3), (0, 2)] }
      { initialState with loop_step := .read_GPS }
      [(0, 3)] [] 0 2 rfl (by decide) (by decide) rfl,
    low_voltage_aborts_wait_loops.2.1
      { defaultEnv with chgSamples := [(false, 3), (false, 2)] }
      { initialState with loop_step := .start_LTC3225 }
      [(false, 3)] [] false 2 rfl (by decide) (by decide) rfl,
    low_voltage_aborts_wait_loops.2.2
      { defaultEnv with topupSamples := [(false, 3), (false, 2)] }
      { initialState with loop_step := .wait_LTC3225 }
      [(false, 3)] [] false 2 rfl (by decide) (by decide) rfl⟩

/-- C10: when a wait loop's success condition and a low final voltage sample
coincide, low voltage wins: in `read_GPS` a 3D fix obtained on the same
iteration as a low voltage sample still leads to `zzz` and the fix globals are
left untouched (neither captured nor defaulted); in `start_LTC3225` a PGOOD
reading obtained on the iteration of a low sample still leads to `zzz`; in
`wait_LTC3225` a stored-PGOOD success with a low final sample leads to `zzz`. -/
theorem low_voltage_beats_success :
    (∀ (env : Env) (s : TrackerState) (pre rest : List (ℕ × ℚ)) (v : ℚ),
      s.loop_step = .read_GPS →
      (∀ x ∈ pre, x.1 ≠ 3 ∧ ¬(x.2 < VBAT_LOW)) → v < VBAT_LOW →
      env.gpsSamples = pre ++ (3, v) :: rest →
      (step env s).loop_step = .zzz ∧
        (step env s).latitude = s.latitude ∧
        (step env s).longitude = s.longitude ∧
        (step env s).altitude = s.altitude ∧
        (step env s).speed = s.speed ∧
        (step env s).satellites = s.satellites ∧
        (step env s).course = s.course ∧
        (step env s).pdop = s.pdop ∧
        (step env s).year = s.year ∧
        (step env s).month = s.month ∧
        (step env s).day = s.day ∧
        (step env s).hour = s.hour ∧
        (step env s).minute = s.minute ∧
        (step env s).second = s.second ∧
        (step env s).milliseconds = s.milliseconds) ∧
    (∀ (env : Env) (s : TrackerState) (pre rest : List (Bool × ℚ)) (v : ℚ),
      s.loop_step = .start_LTC3225 →
      (∀ x ∈ pre, x.1 = false ∧ ¬(x.2 < VBAT_LOW)) → v < VBAT_LOW →
      env.chgSamples = pre ++ (true, v) :: rest →
      (step env s).loop_step = .zzz ∧ (step env s).PGOOD = true) ∧
    (∀ (env : Env) (s : TrackerState) (pre rest : List (Bool × ℚ)) (p : Bool)
        (v : ℚ), s.loop_step = .wait_LTC3225 → s.PGOOD = true →
      (∀ x ∈ pre, ¬(x.2 < VBAT_LOW)) → v < VBAT_LOW →
      env.topupSamples = pre ++ (p, v) :: rest →
      (step env s).loop_step = .zzz) := by
  refine ⟨?_, ?_, ?_⟩
  · intro env s pre rest v hls hpre hv hsamp
    have hloop : gpsFixLoop 0 s.vbat env.gpsSamples = (3, v, rest) := by
      rw [hsamp]; exact gpsFixLoop_low hv pre 0 s.vbat (by decide) hpre
    simp only [step, hls, stepReadGPS, hloop]
    simp [hv]
  · intro env s pre rest v hls hpre hv hsamp
    have hloop : pgoodLoop false s.vbat env.chgSamples = (true, v, rest) := by
      rw [hsamp]; exact pgoodLoop_low hv pre false s.vbat rfl hpre
    simp only [step, hls, stepStartLTC3225, hloop]
    simp [hv]
  · intro env s pre rest p v hls _ hpre hv hsamp
    have hloop : topupLoop s.vbat env.topupSamples = (v, rest) := by
      rw [hsamp]; exact topupLoop_low hv pre s.vbat hpre
    simp only [step, hls, stepWaitLTC3225, hloop]
    simp [hv]

/-- C10 witness: the three priority situations instantiated at concrete
traces whose final sample carries the success signal together with a low
voltage. -/
theorem low_voltage_beats_success_witness :
    ((step { defaultEnv with gpsSamples := [(2, 3), (3, 2)] }
        { initialState with loop_step := .read_GPS }).loop_step = .zzz ∧
      (step { defaultEnv with gpsSamples := [(2, 3), (3, 2)] }
        { initialState with loop_step := .read_GPS }).latitude =
        initialState.latitude ∧
      (step { defaultEnv with gpsSamples := [(2, 3), (3, 2)] }
        { initialState with loop_step := .read_GPS }).longitude =
        initialState.longitude ∧
      (step { defaultEnv with gpsSamples := [(2, 3), (3, 2)] }
        { initialState with loop_step := .read_GPS }).altitude =
        initialState.altitude ∧
      (step { defaultEnv with gpsSamples := [(2, 3), (3, 2)] }
        { initialState with loop_step := .read_GPS }).speed =
        initialState.speed ∧
      (step { defaultEnv with gpsSamples := [(2, 3), (3, 2)] }
        { initialState with loop_step := .read_GPS }).satellites =
        initialState.satellites ∧
      (step { defaultEnv with gpsSamples := [(2, 3), (3, 2)] }
        { initialState with loop_step := .read_GPS }).course =
        initialState.course ∧
      (step { defaultEnv with gpsSamples := [(2, 3), (3, 2)] }
        { initialState with loop_step := .read_GPS }).pdop =
        initialState.pdop ∧
      (step { defaultEnv with gpsSamples := [(2, 3), (3, 2)] }
        { initialState with loop_step := .read_GPS }).year =
        initialState.year ∧
      (step { defaultEnv with gpsSamples := [(2, 3), (3, 2)] }
        { initialState with loop_step := .read_GPS }).month =
        initialState.month ∧
      (step { defaultEnv with gpsSamples := [(2, 3), (3, 2)] }
        { initialState with loop_step := .read_GPS }).day =
        initialState.day ∧
      (step { defaultEnv with gpsSamples := [(2, 3), (3, 2)] }
        { initialState with loop_step := .read_GPS }).hour =
        initialState.hour ∧
      (step { defaultEnv with gpsSamples := [(2, 3), (3, 2)] }
        { initialState with loop_step := .read_GPS }).minute =
        initialState.minute ∧
      (step { defaultEnv with gpsSamples := [(2, 3), (3, 2)] }
        { initialState with loop_step := .read_GPS }).second =
        initialState.second ∧
      (step { defaultEnv with gpsSamples := [(2, 3), (3, 2)] }
        { initialState with loop_step := .read_GPS }).milliseconds =
        initialState.milliseconds) ∧
    ((step { defaultEnv with chgSamples := [(false, 3), (true, 2)] }
        { initialState with loop_step := .start_LTC3225 }).loop_step = .zzz ∧
      (step { defaultEnv with chgSamples := [(false, 3), (true, 2)] }
        { initialState with loop_step := .start_LTC3225 }).PGOOD = true) ∧
    (step { defaultEnv with topupSamples := [(false, 3), (true, 2)] }
      { initialState with
        loop_step := .wait_LTC3225, PGOOD := true }).loop_step = .zzz :=
  ⟨low_voltage_beats_success.1
      { defaultEnv with gpsSamples := [(2, 3), (3, 2)] }
      { initialState with loop_step := .read_GPS }
      [(2, 3)] [] 2 rfl (by decide) (by decide) rfl,
    low_voltage_beats_success.2.1
      { defaultEnv with chgSamples := [(false, 3), (true, 2)] }
      { initialState with loop_step := .start_LTC3225 }
      [(false, 3)] [] 2 rfl (by decide) (by decide) rfl,
    low_voltage_beats_success.2.2
      { defaultEnv with topupSamples := [(false, 3), (true, 2)] }
      { initialState with loop_step := .wait_LTC3225, PGOOD := true }
      [(false, 3)] [] true 2 rfl rfl (by decide) (by decide) rfl⟩

/-- C4 counterexample: with the claim's record values stored into the
firmware's `float` globals (`FixRecord.store` / `EnvironmentRecord.store`
apply the binary32 rounding the C assignment performs), the formatted message
does NOT begin with the text stated in the claim: binary32 cannot hold
51.123456, and its nearest value 51.12345504... prints as `51.123455`. -/
theorem message_format_claimed_text_fails :
    List.isPrefixOf
      "20201215093000,51.123456,-1.234567,123.00,1.50,90,2,8,101300,15.5,4.05,7".toList
      (formatMessage
        (FixRecord.store 2020 12 15 9 30 0 51.123456 (-1.234567) 123 1.50 90 2 8)
        (EnvironmentRecord.store 101300 15.5) (fl32 4.05) 7).toList = false := by
  decide

/-- C4 amended: the message assembled by `start_9603` from the claim's record
values (as held in the `float` globals) is exactly
`20201215093000,51.123455,-1.234567,123.00,1.50,90,2,8,101300,15.5,4.05,7`
(so it begins with that text; only the last latitude digit differs from the
claim). -/
theorem message_format_exact :
    formatMessage
        (FixRecord.store 2020 12 15 9 30 0 51.123456 (-1.234567) 123 1.50 90 2 8)
        (EnvironmentRecord.store 101300 15.5) (fl32 4.05) 7 =
      "20201215093000,51.123455,-1.234567,123.00,1.50,90,2,8,101300,15.5,4.05,7" := by
  decide

/-- C5 counterexample: a completed execution of the `start_9603`
(StartTransmit) state in which `modem.begin` fails: the machine goes to Sleep
with `iterationCounter` unchanged at 0 — it is not incremented, contradicting
"increments by exactly 1 on every completed execution of the StartTransmit
state". -/
theorem counter_unchanged_on_modem_begin_failure :
    (step { defaultEnv with modemBeginErr := 2 }
        { initialState with loop_step := .start_9603 }).loop_step = .zzz ∧
      (step { defaultEnv with modemBeginErr := 2 }
        { initialState with loop_step := .start_9603 }).iterationCounter = 0 := by
  decide

/-- C5 amended: `iterationCounter` increments by exactly 1 on every execution
of `start_9603` in which the modem session init succeeds, regardless of the
send status; it is unchanged when the session init fails; no `loop()` step
ever changes it other than by 0 or +1; and it is 0 at reset. -/
theorem iteration_counter_characterization :
    (∀ (env : Env) (s : TrackerState), s.loop_step = .start_9603 →
      (env.modemBeginErr = ISBD_SUCCESS →
        (step env s).iterationCounter = s.iterationCounter + 1) ∧
      (env.modemBeginErr ≠ ISBD_SUCCESS →
        (step env s).iterationCounter = s.iterationCounter)) ∧
    (∀ (env : Env) (s : TrackerState),
      (step env s).iterationCounter = s.iterationCounter ∨
        (step env s).iterationCounter = s.iterationCounter + 1) ∧
    initialState.iterationCounter = 0 := by
  refine ⟨?_, ?_, rfl⟩
  · intro env s hls
    constructor
    · intro hok
      simp [step, hls, stepStart9603, hok]
    · intro hbad
      simp [step, hls, stepStart9603, hbad]
  · intro env s
    cases hls : s.loop_step
    case loop_init =>
      left; simp only [step, hls, stepInit]; split <;> rfl
    case start_GPS =>
      left; simp only [step, hls, stepStartGPS]; split_ifs <;> rfl
    case read_GPS =>
      left; simp only [step, hls, stepReadGPS]; split_ifs <;> rfl
    case read_pressure =>
      left; simp only [step, hls, readPressureRun]; split_ifs <;> rfl
    case start_LTC3225 =>
      left; simp only [step, hls, stepStartLTC3225]; split_ifs <;> rfl
    case wait_LTC3225 =>
      left; simp only [step, hls, stepWaitLTC3225]; split_ifs <;> rfl
    case start_9603 =>
      by_cases hok : env.modemBeginErr = ISBD_SUCCESS
      · right; simp [step, hls, stepStart9603, hok]
      · left; simp [step, hls, stepStart9603, hok]
    case zzz =>
      left; simp [step, hls, stepZzz, zzzPowerDown]
    case wake =>
      left; simp [step, hls]

/-- C5 witness: the increment and no-increment branches instantiated at
concrete inputs (modem init succeeding, resp. failing with status 2). -/
theorem iteration_counter_characterization_witness :
    (step defaultEnv
        { initialState with loop_step := .start_9603 }).iterationCounter =
      ({ initialState with
          loop_step := .start_9603 } : TrackerState).iterationCounter + 1 ∧
    (step { defaultEnv with modemBeginErr := 2 }
        { initialState with loop_step := .start_9603 }).iterationCounter =
      ({ initialState with
          loop_step := .start_9603 } : TrackerState).iterationCounter :=
  ⟨(iteration_counter_characterization.1 defaultEnv
      { initialState with loop_step := .start_9603 } rfl).1 rfl,
    (iteration_counter_characterization.1 { defaultEnv with modemBeginErr := 2 }
      { initialState with loop_step := .start_9603 } rfl).2 (by decide)⟩

/-- The documented default / "no fix" sentinel values of the fix globals
(source lines 368-381 and 488-501). -/
def FixDefaults (s : TrackerState) : Prop :=
  s.latitude = 0 ∧ s.longitude = 0 ∧ s.altitude = 0 ∧ s.speed = 0 ∧
    s.satellites = 0 ∧ s.course = 0 ∧ s.pdop = 0 ∧ s.year = 1970 ∧
    s.month = 1 ∧ s.day = 1 ∧ s.hour = 0 ∧ s.minute = 0 ∧ s.second = 0 ∧
    s.milliseconds = 0

/-- C6: whenever the GNSS handshake (`myGPS.begin`) fails in `start_GPS`
(with the voltage check passed, which is what reaches the handshake), all
fix globals are set exactly to the documented default tuple, the GNSS power
domain is switched off, and the machine proceeds to `read_pressure`. -/
theorem gnss_handshake_failure_defaults (env : Env) (s : TrackerState)
    (hls : s.loop_step = .start_GPS) (hv : ¬(env.vbat0 < VBAT_LOW))
    (hb : env.gpsBeginOk = false) :
    FixDefaults (step env s) ∧ (step env s).gnssOn = false ∧
      (step env s).loop_step = .read_pressure := by
  simp only [step, hls, stepStartGPS]
  simp [FixDefaults, hv, hb]

/-- C6 witness: the handshake-failure branch instantiated at a concrete input
(adequate voltage, `begin` returning false). -/
theorem gnss_handshake_failure_defaults_witness :
    FixDefaults (step { defaultEnv with gpsBeginOk := false }
        { initialState with loop_step := .start_GPS }) ∧
      (step { defaultEnv with gpsBeginOk := false }
        { initialState with loop_step := .start_GPS }).gnssOn = false ∧
      (step { defaultEnv with gpsBeginOk := false }
        { initialState with loop_step := .start_GPS }).loop_step =
        .read_pressure :=
  gnss_handshake_failure_defaults { defaultEnv with gpsBeginOk := false }
    { initialState with loop_step := .start_GPS } rfl (by decide) rfl

/-- All five peripheral power-control lines the `zzz` prologue drives low:
GNSS enable, Iridium power enable, Iridium ON/OFF (sleep) line,
supercapacitor charger enable, bus voltage monitor enable. -/
def domainsOff (s : TrackerState) : Prop :=
  s.gnssOn = false ∧ s.iridiumPwr = false ∧ s.iridiumSleepPin = false ∧
    s.superCapChgEN = false ∧ s.busVoltageMonEN = false

/-- C7: the `zzz` state drives every peripheral power domain to its off level
before the deep-sleep wait, from any prior state whatsoever (so on every path
into Sleep); the whole `zzz` step leaves them off; and powering down an
already-powered-down state changes nothing (disabling a never-enabled domain
is safe). -/
theorem sleep_powers_down_all_domains :
    (∀ s : TrackerState, domainsOff (zzzPowerDown s)) ∧
    (∀ (env : Env) (s : TrackerState), s.loop_step = .zzz →
      domainsOff (step env s)) ∧
    (∀ s : TrackerState, zzzPowerDown (zzzPowerDown s) = zzzPowerDown s) := by
  refine ⟨?_, ?_, ?_⟩
  · intro s; simp [domainsOff, zzzPowerDown]
  · intro env s hls
    simp [step, hls, stepZzz, zzzPowerDown, domainsOff]
  · intro s; rfl

/-- C7 witness: the `zzz` step instantiated at a state with every domain
enabled. -/
theorem sleep_powers_down_all_domains_witness :
    domainsOff (step defaultEnv
      { initialState with
        loop_step := .zzz, gnssOn := true, iridiumPwr := true
        iridiumSleepPin := true, superCapChgEN := true
        busVoltageMonEN := true }) :=
  sleep_powers_down_all_domains.2.1 defaultEnv
    { initialState with
      loop_step := .zzz, gnssOn := true, iridiumPwr := true
      iridiumSleepPin := true, superCapChgEN := true
      busVoltageMonEN := true } rfl

/-- C8: each RTC ISR invocation increments the seconds counter by exactly 1
(below the `unsigned long` wrap), setting the interval latch and zeroing the
counter exactly when the incremented counter reaches `INTERVAL` and otherwise
changing nothing else; the deep-sleep wait exits immediately (clearing the
latch) when the latch is set, re-sleeps through any wake event while the
latch is clear (spurious wakes tolerated), and whenever it exits, it does so
from a latch-set state which it returns with the latch cleared. -/
theorem rtc_tick_and_sleep_latch :
    (∀ st : RtcState, st.seconds_count + 1 < 4294967296 →
      (INTERVAL ≤ st.seconds_count + 1 →
        am_rtc_isr st = { seconds_count := 0, interval_alarm := true }) ∧
      (st.seconds_count + 1 < INTERVAL →
        am_rtc_isr st =
          { seconds_count := st.seconds_count + 1
            interval_alarm := st.interval_alarm })) ∧
    (∀ (st : RtcState) (evs : List ℕ), st.interval_alarm = true →
      sleepWait st evs = ({ st with interval_alarm := false }, true)) ∧
    (∀ (st : RtcState) (n : ℕ) (evs : List ℕ), st.interval_alarm = false →
      sleepWait st (n :: evs) = sleepWait (isrN n st) evs) ∧
    (∀ (evs : List ℕ) (st st' : RtcState), sleepWait st evs = (st', true) →
      ∃ st0 : RtcState, st0.interval_alarm = true ∧
        st' = { st0 with interval_alarm := false }) := by
  refine ⟨?_, ?_, ?_, ?_⟩
  · intro st hlt
    have hmod : (st.seconds_count + 1) % 4294967296 = st.seconds_count + 1 :=
      Nat.mod_eq_of_lt hlt
    constructor
    · intro h
      simp [am_rtc_isr, hmod, h]
    · intro h
      simp [am_rtc_isr, hmod, Nat.not_le.mpr h]
  · intro st evs h
    cases evs <;> simp [sleepWait, h]
  · intro st n evs h
    simp [sleepWait, h]
  · intro evs
    induction evs with
    | nil =>
      intro st st' h
      by_cases ha : st.interval_alarm
      · refine ⟨st, ha, ?_⟩
        simp [sleepWait, ha] at h
        exact h.symm
      · simp [sleepWait, ha] at h
    | cons n tl ih =>
      intro st st' h
      by_cases ha : st.interval_alarm
      · refine ⟨st, ha, ?_⟩
        simp [sleepWait, ha] at h
        exact h.symm
      · rw [sleepWait, if_neg (by simp [ha])] at h
        exact ih _ _ h

/-- C8 witness: the tick and wait behaviours instantiated at concrete states
(a mid-interval tick, the 900th tick, an immediate latch-set exit, a spurious
wake with the latch clear). -/
theorem rtc_tick_and_sleep_latch_witness :
    am_rtc_isr { seconds_count := 0, interval_alarm := false } =
      { seconds_count := 1, interval_alarm := false } ∧
    am_rtc_isr { seconds_count := 899, interval_alarm := false } =
      { seconds_count := 0, interval_alarm := true } ∧
    sleepWait { seconds_count := 7, interval_alarm := true } [] =
      ({ seconds_count := 7, interval_alarm := false }, true) ∧
    sleepWait { seconds_count := 7, interval_alarm := false } [0] =
      sleepWait (isrN 0 { seconds_count := 7, interval_alarm := false }) [] :=
  ⟨(rtc_tick_and_sleep_latch.1 { seconds_count := 0, interval_alarm := false }
      (by decide)).2 (by decide),
    (rtc_tick_and_sleep_latch.1 { seconds_count := 899, interval_alarm := false }
      (by decide)).1 (by decide),
    rtc_tick_and_sleep_latch.2.1 { seconds_count := 7, interval_alarm := true }
      [] rfl,
    rtc_tick_and_sleep_latch.2.2.1 { seconds_count := 7, interval_alarm := false }
      0 [] rfl⟩

/-- C9: `read_pressure` attempts the sensor handshake with exactly one retry
on failure; on persistent failure the environment globals are zeroed; on a
successful handshake temperature is read before pressure and the pressure is
converted from hPa to Pa by multiplying by 100; in every case the next state
is `start_LTC3225` (and the `loop()` dispatcher runs exactly this body in the
`read_pressure` state). -/
theorem read_pressure_retry_and_defaults :
    (∀ (env : Env) (s : TrackerState), s.loop_step = .read_pressure →
      step env s = (readPressureRun env s).1) ∧
    (∀ (env : Env) (s : TrackerState),
      (readPressureRun env s).1.loop_step = .start_LTC3225) ∧
    (∀ (env : Env) (s : TrackerState), env.phtBegin1 = true →
      readPressureRun env s =
        ({ s with
            tempC := env.phtTemp, pascals := env.phtPressHPa * 100
            loop_step := .start_LTC3225 },
          [PhtCall.phtBegin, PhtCall.getTemp, PhtCall.getPress])) ∧
    (∀ (env : Env) (s : TrackerState), env.phtBegin1 = false →
      env.phtBegin2 = true →
      readPressureRun env s =
        ({ s with
            tempC := env.phtTemp, pascals := env.phtPressHPa * 100
            loop_step := .start_LTC3225 },
          [PhtCall.phtBegin, PhtCall.phtBegin, PhtCall.getTemp,
            PhtCall.getPress])) ∧
    (∀ (env : Env) (s : TrackerState), env.phtBegin1 = false →
      env.phtBegin2 = false →
      readPressureRun env s =
        ({ s with pascals := 0, tempC := 0, loop_step := .start_LTC3225 },
          [PhtCall.phtBegin, PhtCall.phtBegin])) := by
  refine ⟨?_, ?_, ?_, ?_, ?_⟩
  · intro env s hls
    simp only [step, hls]
  · intro env s
    simp only [readPressureRun]
    split_ifs <;> rfl
  · intro env s h1
    simp [readPressureRun, h1]
  · intro env s h1 h2
    simp [readPressureRun, h1, h2]
  · intro env s h1 h2
    simp [readPressureRun, h1, h2]

/-- C9 witness: the three handshake outcomes instantiated at concrete sensor
responses (21 °C, 1013 hPa). -/
theorem read_pressure_retry_and_defaults_witness :
    step { defaultEnv with phtTemp := 21, phtPressHPa := 1013 }
        { initialState with loop_step := .read_pressure } =
      (readPressureRun { defaultEnv with phtTemp := 21, phtPressHPa := 1013 }
        { initialState with loop_step := .read_pressure }).1 ∧
    readPressureRun { defaultEnv with phtTemp := 21, phtPressHPa := 1013 }
        initialState =
      ({ initialState with
          tempC := 21, pascals := 1013 * 100
          loop_step := .start_LTC3225 },
        [PhtCall.phtBegin, PhtCall.getTemp, PhtCall.getPress]) ∧
    readPressureRun
        { defaultEnv with
          phtBegin1 := false, phtTemp := 21, phtPressHPa := 1013 }
        initialState =
      ({ initialState with
          tempC := 21, pascals := 1013 * 100
          loop_step := .start_LTC3225 },
        [PhtCall.phtBegin, PhtCall.phtBegin, PhtCall.getTemp,
          PhtCall.getPress]) ∧
    readPressureRun { defaultEnv with phtBegin1 := false, phtBegin2 := false }
        initialState =
      ({ initialState with
          pascals := 0, tempC := 0, loop_step := .start_LTC3225 },
        [PhtCall.phtBegin, PhtCall.phtBegin]) :=
  ⟨read_pressure_retry_and_defaults.1
      { defaultEnv with phtTemp := 21, phtPressHPa := 1013 }
      { initialState with loop_step := .read_pressure } rfl,
    read_pressure_retry_and_defaults.2.2.1
      { defaultEnv with phtTemp := 21, phtPressHPa := 1013 }
      initialState rfl,
    read_pressure_retry_and_defaults.2.2.2.1
      { defaultEnv with
        phtBegin1 := false, phtTemp := 21, phtPressHPa := 1013 }
      initialState rfl rfl,
    read_pressure_retry_and_defaults.2.2.2.2
      { defaultEnv with phtBegin1 := false, phtBegin2 := false }
      initialState rfl rfl⟩
